import Mathlib

/-!
Verification development for the `co_slog` crate (async offload engine,
scoped logger stack, mutex drain).  The Lean definitions below are a shallow
embedding of the Rust source:

* `src/src/async_drain.rs` — `ToSendSerializer`, `AsyncCore`, `Async`,
  `AsyncGuard`, the worker loop of `AsyncCoreBuilder::spawn_thread`;
* `src/src/lib.rs` — the per-context scope stack (`TL_SCOPES`, `ScopeGuard`,
  `logger`, `with_logger`) and the global fallback logger
  (`GLOBAL_LOGGER`, `set_global_logger`, `GlobalLoggerGuard`);
* `src/src/mutex_drain.rs` — `MutexDrain` and `MutexDrainError`.

Machine state that Rust keeps in shared cells (the channel buffer, the
`dropped: AtomicUsize` counter, the coroutine-local stack) is passed
explicitly; the sequential semantics of one execution context is modelled by
threading that state through each operation.
-/

namespace CoSlog

/-- slog `Key` (a static string slice). -/
abbrev Key := String

/-- Bit pattern of an `f32` value; the serializer only stores floats, never
computes with them, so a float is represented by its bits. -/
structure F32 where
  bits : Nat
deriving DecidableEq

/-- Bit pattern of an `f64` value. -/
structure F64 where
  bits : Nat
deriving DecidableEq

/-- The payload types the slog `Serializer` trait can receive, one constructor
per `emit_*` method of `ToSendSerializer` in `src/src/async_drain.rs`. -/
inductive SVal
  | vBool (b : Bool)
  | vUnit
  | vNone
  | vChar (c : Char)
  | vU8 (n : Nat)
  | vI8 (n : Int)
  | vU16 (n : Nat)
  | vI16 (n : Int)
  | vU32 (n : Nat)
  | vI32 (n : Int)
  | vF32 (f : F32)
  | vU64 (n : Nat)
  | vI64 (n : Int)
  | vF64 (f : F64)
  | vUsize (n : Nat)
  | vIsize (n : Int)
  | vStr (s : String)
deriving DecidableEq

/-- The slog `Error` in `slog::Result`; its shape is irrelevant here, only
whether a result is `Ok`. -/
inductive SlogError
  | err
deriving DecidableEq

/-- `slog::Result` = `Result<(), slog::Error>`. -/
abbrev SlogResult := Except SlogError Unit

/-- The owned key-value representation accumulated by `ToSendSerializer`:
it starts from `Box::new(())` and each `emit_*` wraps the current value as
`Box::new((kv, SingleKV(key, val)))`, producing left-nested pairs. -/
inductive KVrep
  | unit
  | pair (rest : KVrep) (k : Key) (v : SVal)
deriving DecidableEq

/-- `ToSendSerializer` from `src/src/async_drain.rs`. -/
structure ToSendSerializer where
  kv : KVrep
deriving DecidableEq

/-- `ToSendSerializer::new`. -/
def ToSendSerializer.new : ToSendSerializer := ⟨KVrep.unit⟩

/-- `ToSendSerializer::finish`. -/
def ToSendSerializer.finish (s : ToSendSerializer) : KVrep := s.kv

/-- `emit_bool`: `take(&mut self.kv, |kv| Box::new((kv, SingleKV(key, val)))); Ok(())`. -/
def ToSendSerializer.emit_bool (s : ToSendSerializer) (key : Key) (val : Bool) :
    ToSendSerializer × SlogResult :=
  (⟨s.kv.pair key (SVal.vBool val)⟩, Except.ok ())

/-- `emit_unit`. -/
def ToSendSerializer.emit_unit (s : ToSendSerializer) (key : Key) :
    ToSendSerializer × SlogResult :=
  (⟨s.kv.pair key SVal.vUnit⟩, Except.ok ())

/-- `emit_none`. -/
def ToSendSerializer.emit_none (s : ToSendSerializer) (key : Key) :
    ToSendSerializer × SlogResult :=
  (⟨s.kv.pair key SVal.vNone⟩, Except.ok ())

/-- `emit_char`. -/
def ToSendSerializer.emit_char (s : ToSendSerializer) (key : Key) (val : Char) :
    ToSendSerializer × SlogResult :=
  (⟨s.kv.pair key (SVal.vChar val)⟩, Except.ok ())

/-- `emit_u8`. -/
def ToSendSerializer.emit_u8 (s : ToSendSerializer) (key : Key) (val : Nat) :
    ToSendSerializer × SlogResult :=
  (⟨s.kv.pair key (SVal.vU8 val)⟩, Except.ok ())

/-- `emit_i8`. -/
def ToSendSerializer.emit_i8 (s : ToSendSerializer) (key : Key) (val : Int) :
    ToSendSerializer × SlogResult :=
  (⟨s.kv.pair key (SVal.vI8 val)⟩, Except.ok ())

/-- `emit_u16`. -/
def ToSendSerializer.emit_u16 (s : ToSendSerializer) (key : Key) (val : Nat) :
    ToSendSerializer × SlogResult :=
  (⟨s.kv.pair key (SVal.vU16 val)⟩, Except.ok ())

/-- `emit_i16`. -/
def ToSendSerializer.emit_i16 (s : ToSendSerializer) (key : Key) (val : Int) :
    ToSendSerializer × SlogResult :=
  (⟨s.kv.pair key (SVal.vI16 val)⟩, Except.ok ())

/-- `emit_u32`. -/
def ToSendSerializer.emit_u32 (s : ToSendSerializer) (key : Key) (val : Nat) :
    ToSendSerializer × SlogResult :=
  (⟨s.kv.pair key (SVal.vU32 val)⟩, Except.ok ())

/-- `emit_i32`. -/
def ToSendSerializer.emit_i32 (s : ToSendSerializer) (key : Key) (val : Int) :
    ToSendSerializer × SlogResult :=
  (⟨s.kv.pair key (SVal.vI32 val)⟩, Except.ok ())

/-- `emit_f32`. -/
def ToSendSerializer.emit_f32 (s : ToSendSerializer) (key : Key) (val : F32) :
    ToSendSerializer × SlogResult :=
  (⟨s.kv.pair key (SVal.vF32 val)⟩, Except.ok ())

/-- `emit_u64`. -/
def ToSendSerializer.emit_u64 (s : ToSendSerializer) (key : Key) (val : Nat) :
    ToSendSerializer × SlogResult :=
  (⟨s.kv.pair key (SVal.vU64 val)⟩, Except.ok ())

/-- `emit_i64`. -/
def ToSendSerializer.emit_i64 (s : ToSendSerializer) (key : Key) (val : Int) :
    ToSendSerializer × SlogResult :=
  (⟨s.kv.pair key (SVal.vI64 val)⟩, Except.ok ())

/-- `emit_f64`. -/
def ToSendSerializer.emit_f64 (s : ToSendSerializer) (key : Key) (val : F64) :
    ToSendSerializer × SlogResult :=
  (⟨s.kv.pair key (SVal.vF64 val)⟩, Except.ok ())

/-- `emit_usize`. -/
def ToSendSerializer.emit_usize (s : ToSendSerializer) (key : Key) (val : Nat) :
    ToSendSerializer × SlogResult :=
  (⟨s.kv.pair key (SVal.vUsize val)⟩, Except.ok ())

/-- `emit_isize`. -/
def ToSendSerializer.emit_isize (s : ToSendSerializer) (key : Key) (val : Int) :
    ToSendSerializer × SlogResult :=
  (⟨s.kv.pair key (SVal.vIsize val)⟩, Except.ok ())

/-- `emit_str` (the `&str` is copied to an owned `String`). -/
def ToSendSerializer.emit_str (s : ToSendSerializer) (key : Key) (val : String) :
    ToSendSerializer × SlogResult :=
  (⟨s.kv.pair key (SVal.vStr val)⟩, Except.ok ())

/-- `emit_arguments` (the `fmt::Arguments` is formatted to an owned `String`;
the already-formatted text is the payload in the model). -/
def ToSendSerializer.emit_arguments (s : ToSendSerializer) (key : Key) (val : String) :
    ToSendSerializer × SlogResult :=
  (⟨s.kv.pair key (SVal.vStr val)⟩, Except.ok ())

/-- Dispatch of `KV::serialize` on a single typed key-value pair: slog calls
the `emit_*` method that matches the type of the value. -/
def ToSendSerializer.emitOne (s : ToSendSerializer) (k : Key) :
    SVal → ToSendSerializer × SlogResult
  | SVal.vBool b => s.emit_bool k b
  | SVal.vUnit => s.emit_unit k
  | SVal.vNone => s.emit_none k
  | SVal.vChar c => s.emit_char k c
  | SVal.vU8 n => s.emit_u8 k n
  | SVal.vI8 n => s.emit_i8 k n
  | SVal.vU16 n => s.emit_u16 k n
  | SVal.vI16 n => s.emit_i16 k n
  | SVal.vU32 n => s.emit_u32 k n
  | SVal.vI32 n => s.emit_i32 k n
  | SVal.vF32 f => s.emit_f32 k f
  | SVal.vU64 n => s.emit_u64 k n
  | SVal.vI64 n => s.emit_i64 k n
  | SVal.vF64 f => s.emit_f64 k f
  | SVal.vUsize n => s.emit_usize k n
  | SVal.vIsize n => s.emit_isize k n
  | SVal.vStr t => s.emit_str k t

/-- `record.kv().serialize(record, &mut ser)`: serialize the inline
key-value pairs of the record in insertion order, stopping at the first
error (slog serialization is fallible in general). -/
def serializeKVs (s : ToSendSerializer) : List (Key × SVal) → ToSendSerializer × SlogResult
  | [] => (s, Except.ok ())
  | (k, v) :: rest =>
    match s.emitOne k v with
    | (s', Except.ok ()) => serializeKVs s' rest
    | (s', Except.error e) => (s', Except.error e)

/-- slog logging levels. -/
inductive Level
  | Critical
  | Error
  | Warning
  | Info
  | Debug
  | Trace
deriving DecidableEq

/-- `slog::RecordLocation` (call-site metadata). -/
structure RecordLocation where
  file : String
  line : Nat
  column : Nat
deriving DecidableEq

/-- The inherited key-value chain of the logger (`OwnedKVList`); owned, so
`clone()` copies it unchanged into the snapshot. -/
structure OwnedKVList where
  vals : List (Key × SVal)
deriving DecidableEq

/-- A producer-side `slog::Record`: level, message, location, tag and the
inline (possibly borrowed) key-value pairs. -/
structure Record where
  msg : String
  level : Level
  location : RecordLocation
  tag : String
  kv : List (Key × SVal)
deriving DecidableEq

/-- `AsyncRecord` from `src/src/async_drain.rs`: the owned snapshot sent to
the worker thread. -/
structure AsyncRecord where
  msg : String
  level : Level
  location : RecordLocation
  tag : String
  logger_values : OwnedKVList
  kv : KVrep
deriving DecidableEq

/-- `AsyncMsg`: the channel message. -/
inductive AsyncMsg
  | Record (r : AsyncRecord)
  | Finish
deriving DecidableEq

/-- The `may::sync::mpsc` channel between producers and the worker thread.
The `mpsc::channel()` of `may` (like the one of `std`) is unbounded and asynchronous:
`send` appends and succeeds whenever the receiver is still alive, and fails
with `SendError` only when the receiver has been dropped.  `buf` is the queue
content not yet consumed by the worker, `connected` whether the receiver is
still alive. -/
structure Chan where
  buf : List AsyncMsg
  connected : Bool
deriving DecidableEq

/-- `Sender::send`: `true` on success.  On failure the message is returned
inside `SendError` and the queue is unchanged. -/
def Chan.send (c : Chan) (m : AsyncMsg) : Chan × Bool :=
  if c.connected then ({ c with buf := c.buf ++ [m] }, true) else (c, false)

/-- `AsyncError` from `src/src/async_drain.rs`; the `Box<Error>` payload of
`Fatal` is irrelevant to control flow and omitted. -/
inductive AsyncError
  | Full
  | Fatal
deriving DecidableEq

/-- `AsyncResult<T>` with `T = ()`. -/
abbrev AsyncResult := Except AsyncError Unit

/-- `AsyncCore::send`: forward to the channel; a `SendError` is converted by
`From<SendError<T>> for AsyncError` into `AsyncError::Full`. -/
def AsyncCore.send (c : Chan) (r : AsyncRecord) : Chan × AsyncResult :=
  match Chan.send c (AsyncMsg.Record r) with
  | (c', true) => (c', Except.ok ())
  | (c', false) => (c', Except.error AsyncError.Full)

/-- The snapshot `AsyncCore::log` builds from a record: message formatted,
location and tag copied, `logger_values` cloned, inline key-values run
through `ToSendSerializer`. -/
def snapshotOf (record : Record) (logger_values : OwnedKVList) : AsyncRecord :=
  { msg := record.msg
    level := record.level
    location := record.location
    tag := record.tag
    logger_values := logger_values
    kv := (serializeKVs ToSendSerializer.new record.kv).1.finish }

/-- `AsyncCore::log`: serialize the inline key-values of the record (the
`expect("ToSendSerializer cannot fail")` panic, were serialization ever to
fail, is modelled by `none`), then send the snapshot. -/
def AsyncCore.log (c : Chan) (record : Record) (logger_values : OwnedKVList) :
    Option (Chan × AsyncResult) :=
  match serializeKVs ToSendSerializer.new record.kv with
  | (ser, Except.ok ()) =>
    some (AsyncCore.send c
      { msg := record.msg
        level := record.level
        location := record.location
        tag := record.tag
        logger_values := logger_values
        kv := ser.finish })
  | (_, Except.error _) => none

/-- The `Async` drain: the shared channel of its `AsyncCore` plus the
`dropped: AtomicUsize` overflow counter. -/
structure Async where
  core : Chan
  dropped : Nat
deriving DecidableEq

/-- A fresh `Async` as produced by `AsyncBuilder::build`: worker spawned
(receiver alive), empty queue, drop counter zero. -/
def Async.new : Async := { core := { buf := [], connected := true }, dropped := 0 }

/-- Call-site location of the `record!` invocation inside
`Async::push_dropped`. -/
def diagLocation : RecordLocation := { file := "src/async_drain.rs", line := 503, column := 17 }

/-- Message text of the overflow diagnostic (the Rust string literal uses
`\`-continuations that splice to this single line). -/
def overflowMsg : String := "slog-async: logger dropped messages due to channel overflow"

/-- The synthetic diagnostic record built by `Async::push_dropped`:
`record!(Level::Error, "slog-async", "slog-async: logger dropped …",
b!("count" => dropped))`. -/
def diagRecord (dropped : Nat) : Record :=
  { msg := overflowMsg
    level := Level.Error
    location := diagLocation
    tag := "slog-async"
    kv := [("count", SVal.vUsize dropped)] }

/-- `Async::push_dropped`: `swap` the counter to zero; if it was non-zero,
try to enqueue the diagnostic record; on `AsyncError::Full` add the count
back plus one (`fetch_add(dropped + 1)`) and return `Ok`; propagate other
errors.  `none` models a panic inside `AsyncCore::log`. -/
def Async.push_dropped (a : Async) (logger_values : OwnedKVList) :
    Option (Async × AsyncResult) :=
  let dropped := a.dropped
  let a' : Async := { a with dropped := 0 }
  if dropped > 0 then
    match AsyncCore.log a'.core (diagRecord dropped) logger_values with
    | some (c, Except.ok ()) => some ({ a' with core := c }, Except.ok ())
    | some (c, Except.error AsyncError.Full) =>
      some ({ a' with core := c, dropped := a'.dropped + (dropped + 1) }, Except.ok ())
    | some (c, Except.error e) => some ({ a' with core := c }, Except.error e)
    | none => none
  else
    some (a', Except.ok ())

/-- `<Async as Drain>::log`: flush pending drop diagnostics (`?` propagates
its error), then enqueue the snapshot of the record; on `AsyncError::Full` drop
the snapshot, `fetch_add(1)` the counter and return `Ok`. -/
def Async.log (a : Async) (record : Record) (logger_values : OwnedKVList) :
    Option (Async × AsyncResult) :=
  match a.push_dropped logger_values with
  | none => none
  | some (a1, Except.error e) => some (a1, Except.error e)
  | some (a1, Except.ok ()) =>
    match AsyncCore.log a1.core record logger_values with
    | none => none
    | some (c, Except.ok ()) => some ({ a1 with core := c }, Except.ok ())
    | some (c, Except.error AsyncError.Full) =>
      some ({ a1 with core := c, dropped := a1.dropped + 1 }, Except.ok ())
    | some (c, Except.error e) => some ({ a1 with core := c }, Except.error e)

/-- A sequence of `log` calls (state threaded left to right; the per-call
results are all `Ok` in the configurations the theorems consider). -/
def Async.logAll (a : Async) (logger_values : OwnedKVList) : List Record → Option Async
  | [] => some a
  | r :: rs =>
    match a.log r logger_values with
    | some (a', _) => a'.logAll logger_values rs
    | none => none

/-- The worker loop spawned by `AsyncCoreBuilder::spawn_thread`, applied to
the queued messages in FIFO order: each `Record` message is forwarded to the
wrapped drain (the returned list is the stream observed by the sink), `Finish`
terminates the loop.  An empty queue would block on `recv`, which never
happens in the teardown scenarios modelled (a `Finish` is always queued). -/
def consumerRun : List AsyncMsg → List AsyncRecord
  | [] => []
  | AsyncMsg.Record r :: rest => r :: consumerRun rest
  | AsyncMsg.Finish :: _ => []

/-- `<AsyncGuard as Drop>::drop`: send `AsyncMsg::Finish`, then `join` the
worker thread.  Joining means the worker has consumed the whole queue before
the destructor returns; the value is the complete stream the sink observed. -/
def AsyncGuard.drop (c : Chan) : List AsyncRecord :=
  let sent := Chan.send c AsyncMsg.Finish
  consumerRun sent.1.buf

/-! ## Scope stack (`src/src/lib.rs`)

`TL_SCOPES` is a coroutine-local `RefCell<Vec<slog::Logger>>`; the `Vec` is
modelled as a `List` whose last element is the top of the stack, exactly as
`Vec::push`/`Vec::pop`/`last()` operate.  Logger handles are opaque to the
stack, so the definitions are generic in the handle type `L`. -/

/-- `ScopeGuard::new` (the body of `set_logger`): `s.borrow_mut().push(logger)`. -/
def set_logger {L : Type} (stack : List L) (l : L) : List L := stack ++ [l]

/-- `Vec::pop`: remove and return the last element, `none` when empty. -/
def vecPop {L : Type} (stack : List L) : Option (L × List L) :=
  match stack.getLast? with
  | some x => some (x, stack.dropLast)
  | none => none

/-- `<ScopeGuard as Drop>::drop`: `s.borrow_mut().pop().expect("TL_SCOPES
should contain a logger")` — `none` models the panic on an empty stack. -/
def scopeGuardDrop {L : Type} (stack : List L) : Option (List L) :=
  (vecPop stack).map (fun p => p.2)

/-- `logger()`: top of the stack, or a clone of `GLOBAL_LOGGER` when the
stack is empty. -/
def logger {L : Type} (stack : List L) (globalLogger : L) : L :=
  match stack.getLast? with
  | some l => l
  | none => globalLogger

/-- `with_logger(f)`: apply `f` to a borrow of the top of the stack, or of
the global logger when the stack is empty. -/
def with_logger {L R : Type} (f : L → R) (stack : List L) (globalLogger : L) : R :=
  match stack.getLast? with
  | some l => f l
  | none => f globalLogger

/-- One scope-stack operation: a `set_logger` push or a guard-drop pop. -/
inductive ScopeOp (L : Type)
  | push (l : L)
  | pop

/-- Run a sequence of pushes and guard drops on a stack; `none` models the
`expect` panic of popping an empty stack. -/
def runOps {L : Type} : List (ScopeOp L) → List L → Option (List L)
  | [], s => some s
  | ScopeOp.push l :: ops, s => runOps ops (set_logger s l)
  | ScopeOp.pop :: ops, s =>
    match scopeGuardDrop s with
    | some s' => runOps ops s'
    | none => none

/-- Properly nested push/pop sequences: empty, a matching `push … pop` pair
wrapping a nested sequence, or two nested sequences in succession. -/
inductive Balanced {L : Type} : List (ScopeOp L) → Prop
  | nil : Balanced []
  | wrap (l : L) {b : List (ScopeOp L)} : Balanced b →
      Balanced (ScopeOp.push l :: (b ++ [ScopeOp.pop]))
  | append {b c : List (ScopeOp L)} : Balanced b → Balanced c → Balanced (b ++ c)

/-! ## Global fallback logger (`src/src/lib.rs`)

`GLOBAL_LOGGER` is a process-wide `ArcCell<Logger>` initialised to
`ENV_LOGGER` (the environment-derived default built by
`env_drain::stderr_logger()`, opaque here); `GLOBAL_GUARD` is a
coroutine-local `Option<GlobalLoggerGuard>` dropped when its execution
context exits. -/

/-- Process-wide logger cells plus the guard slot of the calling context. -/
structure GlobalLoggerState (L : Type) where
  globalLogger : L
  envLogger : L
  guardInstalled : Bool
deriving DecidableEq

/-- The initial state: `GLOBAL_LOGGER` holds a clone of `ENV_LOGGER` and no
guard is installed in the context. -/
def GlobalLoggerState.init {L : Type} (env : L) : GlobalLoggerState L :=
  { globalLogger := env, envLogger := env, guardInstalled := false }

/-- `<GlobalLoggerGuard as Drop>::drop`: `GLOBAL_LOGGER.set(Arc::new(ENV_LOGGER.clone()))`. -/
def globalGuardDrop {L : Type} (st : GlobalLoggerState L) : GlobalLoggerState L :=
  { st with globalLogger := st.envLogger }

/-- `set_global_logger(l)`: set `GLOBAL_LOGGER` to `l`, then store a fresh
`GlobalLoggerGuard` in the coroutine-local slot; the assignment drops any
previously stored guard, whose destructor resets `GLOBAL_LOGGER`. -/
def set_global_logger {L : Type} (l : L) (st : GlobalLoggerState L) : GlobalLoggerState L :=
  let st1 : GlobalLoggerState L := { st with globalLogger := l }
  let st2 : GlobalLoggerState L := if st1.guardInstalled then globalGuardDrop st1 else st1
  { st2 with guardInstalled := true }

/-- Exit of the calling execution context: coroutine-local storage is
destroyed, dropping the stored `GlobalLoggerGuard` (if any), which restores
`GLOBAL_LOGGER` to `ENV_LOGGER`. -/
def contextExit {L : Type} (st : GlobalLoggerState L) : GlobalLoggerState L :=
  if st.guardInstalled then { globalGuardDrop st with guardInstalled := false } else st

/-! ## Mutex drain (`src/src/mutex_drain.rs`) -/

/-- `MutexDrainError<D>`: lock poisoning (`Mutex`) or the error of the
wrapped drain (`Drain`). -/
inductive MutexDrainError (E : Type)
  | Mutex
  | Drain (e : E)
deriving DecidableEq

/-- The `Mutex<D>` inside a `MutexDrain`: the state of the wrapped drain plus the
poison flag set when a holder panicked. -/
structure MutexState (D : Type) where
  drain : D
  poisoned : Bool

/-- `<MutexDrain as Drain>::log`: `self.drain.lock()?` surfaces a poisoned
lock as `MutexDrainError::Mutex` (via `From<PoisonError<…>>`) without
touching the wrapped drain; otherwise forward the record and map the inner
error through `MutexDrainError::Drain`.  `innerLog` is the `log` of the
wrapped drain, returning its new state and result. -/
def MutexDrain.log {D E : Type} (innerLog : D → Record → D × Except E Unit)
    (st : MutexState D) (r : Record) : MutexState D × Except (MutexDrainError E) Unit :=
  if st.poisoned then
    (st, Except.error MutexDrainError.Mutex)
  else
    match innerLog st.drain r with
    | (d', Except.ok ()) => ({ st with drain := d' }, Except.ok ())
    | (d', Except.error e) => ({ st with drain := d' }, Except.error (MutexDrainError.Drain e))

/-! ## Helper lemmas -/

theorem emitOne_snd_ok (s : ToSendSerializer) (k : Key) (v : SVal) :
    (s.emitOne k v).2 = Except.ok () := by
  cases v <;> rfl

theorem serializeKVs_snd_ok (l : List (Key × SVal)) :
    ∀ s : ToSendSerializer, (serializeKVs s l).2 = Except.ok () := by
  induction l with
  | nil => intro s; rfl
  | cons p rest ih =>
    intro s
    obtain ⟨k, v⟩ := p
    cases v <;> exact ih _

theorem serializeKVs_eq (s : ToSendSerializer) (l : List (Key × SVal)) :
    serializeKVs s l = ((serializeKVs s l).1, Except.ok ()) := by
  have h2 := serializeKVs_snd_ok l s
  conv_lhs => rw [← Prod.mk.eta (p := serializeKVs s l)]
  rw [h2]

theorem asyncCoreLog_connected (c : Chan) (r : Record) (lv : OwnedKVList)
    (h : c.connected = true) :
    AsyncCore.log c r lv =
      some ({ c with buf := c.buf ++ [AsyncMsg.Record (snapshotOf r lv)] }, Except.ok ()) := by
  unfold AsyncCore.log
  rw [serializeKVs_eq]
  simp only [AsyncCore.send, Chan.send, h, if_true]
  rfl

theorem asyncCoreLog_disconnected (c : Chan) (r : Record) (lv : OwnedKVList)
    (h : c.connected = false) :
    AsyncCore.log c r lv = some (c, Except.error AsyncError.Full) := by
  unfold AsyncCore.log
  rw [serializeKVs_eq]
  simp only [AsyncCore.send, Chan.send, h, if_false]
  rfl

theorem push_dropped_zero (a : Async) (lv : OwnedKVList) (h : a.dropped = 0) :
    a.push_dropped lv = some (a, Except.ok ()) := by
  obtain ⟨c, d⟩ := a
  simp only at h
  subst h
  rfl

theorem push_dropped_connected (a : Async) (lv : OwnedKVList)
    (h0 : 0 < a.dropped) (hc : a.core.connected = true) :
    a.push_dropped lv =
      some ({ core := { a.core with
                buf := a.core.buf ++ [AsyncMsg.Record (snapshotOf (diagRecord a.dropped) lv)] },
              dropped := 0 }, Except.ok ()) := by
  obtain ⟨c, d⟩ := a
  unfold Async.push_dropped
  simp only [if_pos h0]
  rw [asyncCoreLog_connected _ _ _ hc]

theorem push_dropped_full (a : Async) (lv : OwnedKVList)
    (h0 : 0 < a.dropped) (hc : a.core.connected = false) :
    a.push_dropped lv = some ({ a with dropped := a.dropped + 1 }, Except.ok ()) := by
  obtain ⟨c, d⟩ := a
  unfold Async.push_dropped
  simp only [if_pos h0]
  rw [asyncCoreLog_disconnected _ _ _ hc]
  simp

theorem asyncLog_clean (a : Async) (r : Record) (lv : OwnedKVList)
    (hc : a.core.connected = true) (hd : a.dropped = 0) :
    a.log r lv =
      some ({ core := { a.core with buf := a.core.buf ++ [AsyncMsg.Record (snapshotOf r lv)] },
              dropped := 0 }, Except.ok ()) := by
  obtain ⟨⟨buf, conn⟩, d⟩ := a
  simp only at hc hd
  subst hc
  subst hd
  unfold Async.log
  rw [push_dropped_zero _ _ rfl]
  simp only
  rw [asyncCoreLog_connected _ _ _ rfl]

theorem logAll_clean (lv : OwnedKVList) (rs : List Record) :
    ∀ buf : List AsyncMsg,
      Async.logAll { core := { buf := buf, connected := true }, dropped := 0 } lv rs =
        some { core := { buf := buf ++ rs.map (fun r => AsyncMsg.Record (snapshotOf r lv)),
                         connected := true },
               dropped := 0 } := by
  induction rs with
  | nil => intro buf; simp [Async.logAll]
  | cons r rest ih =>
    intro buf
    unfold Async.logAll
    rw [asyncLog_clean _ _ _ rfl rfl]
    simp only [List.map_cons]
    rw [ih (buf ++ [AsyncMsg.Record (snapshotOf r lv)])]
    simp

theorem consumerRun_records (xs : List AsyncRecord) :
    consumerRun (xs.map AsyncMsg.Record ++ [AsyncMsg.Finish]) = xs := by
  induction xs with
  | nil => rfl
  | cons x rest ih => simp [consumerRun, ih]

theorem vecPop_concat {L : Type} (s : List L) (l : L) :
    vecPop (s ++ [l]) = some (l, s) := by
  unfold vecPop
  rw [List.getLast?_concat, List.dropLast_concat]

theorem runOps_append {L : Type} (b c : List (ScopeOp L)) :
    ∀ s : List L, runOps (b ++ c) s = (runOps b s).bind (runOps c) := by
  induction b with
  | nil => intro s; rfl
  | cons op rest ih =>
    intro s
    cases op with
    | push l => simpa [runOps] using ih (set_logger s l)
    | pop =>
      simp only [List.cons_append, runOps]
      cases scopeGuardDrop s with
      | none => rfl
      | some s' => exact ih s'

theorem Balanced.runOps_eq {L : Type} {b : List (ScopeOp L)} (h : Balanced b) :
    ∀ s : List L, runOps b s = some s := by
  induction h with
  | nil => intro s; rfl
  | wrap l hb ih =>
    intro s
    simp only [runOps, set_logger]
    rw [runOps_append, ih (s ++ [l])]
    simp [runOps, scopeGuardDrop, vecPop_concat]
  | append hb hc ihb ihc =>
    intro s
    rw [runOps_append, ihb s]
    exact ihc s

/-! ## Sample values used by witnesses -/

/-- An empty inherited key-value chain (`o!()`). -/
def sampleLV : OwnedKVList := ⟨[]⟩

/-- A sample call-site location. -/
def sampleLoc : RecordLocation := ⟨"examples/compact-color.rs", 10, 5⟩

/-- A sample log record with one inline key-value pair. -/
def sampleRecord : Record :=
  { msg := "connected", level := Level.Info, location := sampleLoc, tag := ""
    kv := [("host", SVal.vStr "localhost")] }

/-- A second sample log record. -/
def sampleRecord2 : Record :=
  { msg := "exit", level := Level.Info, location := sampleLoc, tag := "", kv := [] }

/-! ## Claim theorems -/

/-- C10: every emit method of the snapshot serializer returns success for
every key and value (`emitOne` dispatches to each `emit_*` method by value
type), so serializing the inline key-value pairs of any record never fails
and the panic branch `expect("ToSendSerializer cannot fail")` in `AsyncCore::log`
(modelled by the `none` result) is unreachable. -/
theorem c10_serializer_infallible :
    (∀ (s : ToSendSerializer) (k : Key) (v : SVal), (s.emitOne k v).2 = Except.ok ()) ∧
    (∀ (s : ToSendSerializer) (l : List (Key × SVal)), (serializeKVs s l).2 = Except.ok ()) ∧
    (∀ (c : Chan) (r : Record) (lv : OwnedKVList), (AsyncCore.log c r lv).isSome = true) := by
  refine ⟨emitOne_snd_ok, fun s l => serializeKVs_snd_ok l s, fun c r lv => ?_⟩
  unfold AsyncCore.log
  rw [serializeKVs_eq]
  simp [AsyncCore.send, Chan.send]

/-- C7: on an empty scope stack `logger()` does not fail: it returns the
process-wide global fallback handle, and `with_logger` invokes its closure on
that same fallback. -/
theorem c7_empty_stack_fallback {L R : Type} (g : L) (f : L → R) :
    logger ([] : List L) g = g ∧ with_logger f ([] : List L) g = f g :=
  ⟨rfl, rfl⟩

/-- C9: when the mutex is poisoned, `MutexDrain::log` returns the distinct
`MutexDrainError::Mutex` error — different from every wrapped-drain error
`MutexDrainError::Drain e` and from success — and leaves the wrapped drain
untouched (the record is not forwarded). -/
theorem c9_poisoned_lock_surfaced {D E : Type} (innerLog : D → Record → D × Except E Unit)
    (st : MutexState D) (r : Record) (h : st.poisoned = true) :
    MutexDrain.log innerLog st r = (st, Except.error MutexDrainError.Mutex) ∧
    (∀ e : E, (Except.error MutexDrainError.Mutex : Except (MutexDrainError E) Unit) ≠
      Except.error (MutexDrainError.Drain e)) ∧
    (Except.error MutexDrainError.Mutex : Except (MutexDrainError E) Unit) ≠
      Except.ok () := by
  refine ⟨?_, fun e h2 => ?_, fun h3 => ?_⟩
  · simp [MutexDrain.log, h]
  · simp at h2
  · simp at h3

/-- C9 witness: a poisoned mutex around a trivial drain at a concrete record. -/
theorem c9_poisoned_lock_surfaced_witness :
    ((⟨0, true⟩ : MutexState Nat).poisoned = true) ∧
    (MutexDrain.log (fun d _ => (d, Except.ok ())) (⟨0, true⟩ : MutexState Nat) sampleRecord =
        ((⟨0, true⟩ : MutexState Nat),
          Except.error (MutexDrainError.Mutex : MutexDrainError Nat)) ∧
      (∀ e : Nat, (Except.error MutexDrainError.Mutex : Except (MutexDrainError Nat) Unit) ≠
        Except.error (MutexDrainError.Drain e)) ∧
      (Except.error MutexDrainError.Mutex : Except (MutexDrainError Nat) Unit) ≠
        Except.ok ()) :=
  ⟨rfl, c9_poisoned_lock_surfaced (fun d _ => (d, Except.ok ())) ⟨0, true⟩ sampleRecord rfl⟩

/-- C8 counterexample: the claim `set_global_logger replaces the process-wide
fallback logger` fails on a second call within the same context.  Starting
from a fresh context with environment default `0`, after
`set_global_logger 5` followed by `set_global_logger 7`, the process-wide
fallback is `0` (the environment default) and not the override `7`: storing
the fresh guard drops the guard of the first call, and that destructor —
running after `GLOBAL_LOGGER.set(Arc::new(l))` — resets the fallback to
`ENV_LOGGER`, clobbering the override that was just installed. -/
theorem c8_second_call_clobbered :
    (set_global_logger 7 (set_global_logger 5 (GlobalLoggerState.init (0 : Nat)))).globalLogger
      = 0 ∧
    (set_global_logger 7 (set_global_logger 5 (GlobalLoggerState.init (0 : Nat)))).globalLogger
      ≠ 7 :=
  ⟨rfl, by decide⟩

/-- C8 (amended): `set_global_logger` installs the override as the
process-wide fallback only on the first call of a context (no guard stored
yet); on a later call in the same context, storing the new guard drops the
previous one, whose destructor resets the fallback to the environment-derived
default (`ENV_LOGGER`) right after the override was written, so the fallback
ends at the default.  In every case, when the calling context ends the
fallback is restored to the environment-derived default, so an override never
outlives the context that installed it. -/
theorem c8_global_override_restored {L : Type} (l : L) (st : GlobalLoggerState L) :
    (set_global_logger l st).globalLogger =
      (if st.guardInstalled then st.envLogger else l) ∧
    (set_global_logger l st).guardInstalled = true ∧
    contextExit (set_global_logger l st) =
      { st with globalLogger := st.envLogger, guardInstalled := false } := by
  obtain ⟨g, env, inst⟩ := st
  cases inst <;> exact ⟨rfl, rfl, rfl⟩

/-- C1: when the enqueue of the snapshot of a record inside `Async::log` fails
with `AsyncError::Full` (the channel refuses the message, here because the
receiver is gone), the call drops the snapshot (the queue is unchanged),
increments the drop counter by exactly one over its value at the moment of
the attempt (`mid`, the state after the diagnostic-flush step), and returns
`Ok` — the failure is never observable at the logging call site. -/
theorem c1_full_enqueue_recovered (a : Async) (r : Record) (lv : OwnedKVList)
    (h : a.core.connected = false) :
    ∃ mid : Async, a.push_dropped lv = some (mid, Except.ok ()) ∧
      mid.core = a.core ∧
      a.log r lv = some ({ mid with dropped := mid.dropped + 1 }, Except.ok ()) := by
  obtain ⟨⟨buf, conn⟩, d⟩ := a
  simp only at h
  subst h
  cases d with
  | zero =>
    refine ⟨⟨⟨buf, false⟩, 0⟩, push_dropped_zero _ lv rfl, rfl, ?_⟩
    unfold Async.log
    rw [push_dropped_zero _ lv rfl]
    simp only
    rw [asyncCoreLog_disconnected _ _ _ rfl]
  | succ n =>
    refine ⟨⟨⟨buf, false⟩, n + 2⟩,
      push_dropped_full ⟨⟨buf, false⟩, n + 1⟩ lv (Nat.succ_pos n) rfl, rfl, ?_⟩
    unfold Async.log
    rw [push_dropped_full ⟨⟨buf, false⟩, n + 1⟩ lv (Nat.succ_pos n) rfl]
    simp only
    rw [asyncCoreLog_disconnected _ _ _ rfl]

/-- C1 witness: a disconnected channel with an empty queue and a clean
counter; the snapshot is dropped, the counter ends at one, the call returns
`Ok`. -/
theorem c1_full_enqueue_recovered_witness :
    ((⟨⟨[], false⟩, 0⟩ : Async).core.connected = false) ∧
    (∃ mid : Async,
      Async.push_dropped ⟨⟨[], false⟩, 0⟩ sampleLV = some (mid, Except.ok ()) ∧
      mid.core = (⟨⟨[], false⟩, 0⟩ : Async).core ∧
      Async.log ⟨⟨[], false⟩, 0⟩ sampleRecord sampleLV =
        some ({ mid with dropped := mid.dropped + 1 }, Except.ok ())) :=
  ⟨rfl, c1_full_enqueue_recovered ⟨⟨[], false⟩, 0⟩ sampleRecord sampleLV rfl⟩

/-- C2: when the drop counter holds `d > 0` and the own
enqueue of the synthetic record fails with `AsyncError::Full`, the counter
afterwards equals its value just before the flush attempt plus one (`d` added
back plus one for the failed diagnostic itself) and is in particular not
reset to zero; the flush still reports `Ok`. -/
theorem c2_diag_full_counter (a : Async) (lv : OwnedKVList)
    (h0 : 0 < a.dropped) (hc : a.core.connected = false) :
    a.push_dropped lv = some ({ a with dropped := a.dropped + 1 }, Except.ok ()) ∧
    a.dropped + 1 ≠ 0 :=
  ⟨push_dropped_full a lv h0 hc, Nat.succ_ne_zero _⟩

/-- C2 witness: three pending drops, diagnostic enqueue refused — the counter
becomes four. -/
theorem c2_diag_full_counter_witness :
    (0 < (⟨⟨[], false⟩, 3⟩ : Async).dropped) ∧
    (Async.push_dropped ⟨⟨[], false⟩, 3⟩ sampleLV =
        some ({ (⟨⟨[], false⟩, 3⟩ : Async) with dropped := 3 + 1 }, Except.ok ()) ∧
      (⟨⟨[], false⟩, 3⟩ : Async).dropped + 1 ≠ 0) :=
  ⟨by decide, c2_diag_full_counter ⟨⟨[], false⟩, 3⟩ sampleLV (by decide) rfl⟩

/-- C3: a successful `Async::log` call made while the drop counter holds
`d > 0` first enqueues exactly one synthetic diagnostic record stating the
dropped count (`diagRecord d`, whose key-values carry `count => d`) and then
the new record, so the FIFO stream of the sink shows the diagnostic immediately
before the new record; the counter is reset to zero and the call returns
`Ok`. -/
theorem c3_diag_precedes_record (a : Async) (r : Record) (lv : OwnedKVList)
    (h0 : 0 < a.dropped) (hc : a.core.connected = true) :
    a.log r lv =
      some ({ core := { buf := a.core.buf ++
                            [AsyncMsg.Record (snapshotOf (diagRecord a.dropped) lv),
                             AsyncMsg.Record (snapshotOf r lv)],
                        connected := true },
              dropped := 0 }, Except.ok ()) := by
  obtain ⟨⟨buf, conn⟩, d⟩ := a
  simp only at h0 hc
  subst hc
  unfold Async.log
  rw [push_dropped_connected ⟨⟨buf, true⟩, d⟩ lv h0 rfl]
  simp only
  rw [asyncCoreLog_connected _ _ _ rfl]
  simp

/-- C3 witness: one pending drop, then a successful log call — the queue
gains the diagnostic for count 1 followed by the snapshot of the new record. -/
theorem c3_diag_precedes_record_witness :
    (0 < (⟨⟨[], true⟩, 1⟩ : Async).dropped) ∧
    Async.log ⟨⟨[], true⟩, 1⟩ sampleRecord sampleLV =
      some ({ core := { buf := [AsyncMsg.Record (snapshotOf (diagRecord 1) sampleLV),
                                AsyncMsg.Record (snapshotOf sampleRecord sampleLV)],
                        connected := true },
              dropped := 0 }, Except.ok ()) :=
  ⟨by decide, c3_diag_precedes_record ⟨⟨[], true⟩, 1⟩ sampleRecord sampleLV (by decide) rfl⟩

/-- C4: after any sequence of `log` calls on a fresh guarded `Async` (every
enqueue succeeds: the worker is alive and nothing was dropped), the queue
holds exactly the snapshots in enqueue order, and the `AsyncGuard` destructor —
which sends `AsyncMsg::Finish` and joins the worker — makes the wrapped sink
observe every enqueued snapshot exactly once, in enqueue order, before the
destructor returns; the `Finish` message, queued after the `N` records,
terminates the worker loop only after those `N` records are forwarded. -/
theorem c4_flush_on_teardown (rs : List Record) (lv : OwnedKVList) :
    ∃ a : Async, Async.logAll Async.new lv rs = some a ∧
      a.core.buf = rs.map (fun r => AsyncMsg.Record (snapshotOf r lv)) ∧
      AsyncGuard.drop a.core = rs.map (fun r => snapshotOf r lv) := by
  refine ⟨_, logAll_clean lv rs [], ?_, ?_⟩
  · simp
  · unfold AsyncGuard.drop
    simp only [Chan.send, if_true, List.nil_append]
    have h : (rs.map (fun r => AsyncMsg.Record (snapshotOf r lv))) =
        (rs.map (fun r => snapshotOf r lv)).map AsyncMsg.Record := by
      simp [List.map_map]
    simpa [h] using consumerRun_records (rs.map (fun r => snapshotOf r lv))

/-- C5: evaluation of the code at the failing input of the claim.  The channel
created by `AsyncCoreBuilder::spawn_thread` is `may::sync::mpsc::channel()`,
which is unbounded (`AsyncBuilder::chan_size` is commented out), so no burst
ever observes a channel-full failure while the worker is alive: every log
call of any burst is enqueued and the drop counter stays zero — contradicting
`exactly K attempts fail and the drop counter equals K` for every claimed
capacity `C` and every `K > 0`.  The concrete conjunct is a two-call burst
with no consumer progress: both snapshots sit in the queue and the counter
is `0`, where a capacity-1 bounded channel would have dropped one. -/
theorem c5_unbounded_channel_no_drop :
    (∀ (rs : List Record) (lv : OwnedKVList), ∃ a : Async,
        Async.logAll Async.new lv rs = some a ∧ a.dropped = 0 ∧
        a.core.buf.length = rs.length) ∧
    Async.logAll Async.new sampleLV [sampleRecord, sampleRecord2] =
      some { core := { buf := [AsyncMsg.Record (snapshotOf sampleRecord sampleLV),
                               AsyncMsg.Record (snapshotOf sampleRecord2 sampleLV)],
                       connected := true },
             dropped := 0 } := by
  constructor
  · intro rs lv
    refine ⟨_, logAll_clean lv rs [], rfl, ?_⟩
    simp
  · simpa using logAll_clean sampleLV [sampleRecord, sampleRecord2] []

/-- C6: in a properly nested run, a pop removes exactly the frame its
matching push added: executing a prefix `pre` (reaching stack `s`), then
`push l`, then any balanced sequence `mid`, then the matching pop, restores
the stack to `s`, so `logger()` after that pop returns the handle that was
active immediately before the push. -/
theorem c6_lifo_round_trip {L : Type} (pre mid : List (ScopeOp L)) (l : L)
    (s0 s : List L) (g : L)
    (hmid : Balanced mid) (hpre : runOps pre s0 = some s) :
    runOps (pre ++ ScopeOp.push l :: (mid ++ [ScopeOp.pop])) s0 = some s ∧
    (runOps (pre ++ ScopeOp.push l :: (mid ++ [ScopeOp.pop])) s0).map
        (fun st => logger st g) = some (logger s g) := by
  have h1 : runOps (pre ++ ScopeOp.push l :: (mid ++ [ScopeOp.pop])) s0 = some s := by
    rw [runOps_append, hpre]
    show runOps (ScopeOp.push l :: (mid ++ [ScopeOp.pop])) s = some s
    simp only [runOps]
    rw [runOps_append, hmid.runOps_eq (set_logger s l)]
    show runOps [ScopeOp.pop] (set_logger s l) = some s
    simp [runOps, scopeGuardDrop, set_logger, vecPop_concat]
  exact ⟨h1, by rw [h1]; rfl⟩

/-- C6 witness: `pre = []` (stack `[0]`), push `7`, a nested balanced
push/pop of `5`, then the matching pop — the stack returns to `[0]` and
`logger()` again yields `0`. -/
theorem c6_lifo_round_trip_witness :
    Balanced ([ScopeOp.push 5, ScopeOp.pop] : List (ScopeOp Nat)) ∧
    runOps ([] : List (ScopeOp Nat)) ([0] : List Nat) = some [0] ∧
    (runOps ([] ++ ScopeOp.push 7 :: ([ScopeOp.push 5, ScopeOp.pop] ++ [ScopeOp.pop]))
        ([0] : List Nat) = some [0] ∧
      (runOps ([] ++ ScopeOp.push 7 :: ([ScopeOp.push 5, ScopeOp.pop] ++ [ScopeOp.pop]))
          ([0] : List Nat)).map (fun st => logger st 9) = some (logger [0] 9)) :=
  have hb : Balanced ([ScopeOp.push 5, ScopeOp.pop] : List (ScopeOp Nat)) :=
    Balanced.wrap 5 Balanced.nil
  ⟨hb, rfl, c6_lifo_round_trip [] [ScopeOp.push 5, ScopeOp.pop] 7 [0] [0] 9 hb rfl⟩

end CoSlog
